import Mathlib

/-!
Verification of the MQL5 mock header `Tools/mql5_linting/mql5_mock.h`.

The header provides, for the benefit of C++ linters, shallow stand-ins for a
handful of MQL5 symbols: two integer type aliases (`datetime`, `color`),
three storage-class macros (`input`, `sinput`, `extern`), four integer
constants (`PERIOD_CURRENT`, `PERIOD_M1`, `OP_BUY`, `OP_SELL`), and seven
stub functions that return fixed values and touch no state.

This file embeds each of those artifacts in Lean and proves the claimed
properties about them.  C++ `double` results are modelled as `Rat` (every
value the header produces is the exactly representable literal `0.0`),
`int` as `Int`, `bool` as `Bool`, `void` as `Unit`, and `std::string` as
`String`.
-/

set_option linter.unusedVariables false

namespace Mql5

/-- Embedding of the C++ fixed-width type `int64_t`: the integers in the
signed 64-bit range. -/
abbrev int64_t : Type := {n : Int // -(2 ^ 63) ≤ n ∧ n < 2 ^ 63}

/-- Embedding of the C++ fixed-width type `uint32_t`: the naturals below
`2 ^ 32`. -/
abbrev uint32_t : Type := {n : Nat // n < 2 ^ 32}

/-- Line 14 of the header: `typedef int64_t datetime;`. -/
abbrev datetime : Type := int64_t

/-- Line 15 of the header: `typedef uint32_t color;`. -/
abbrev color : Type := uint32_t

/-- Line 23 of the header: `PERIOD_CURRENT` is defined as the literal `0`. -/
def PERIOD_CURRENT : Int := 0

/-- Line 24 of the header: `PERIOD_M1` is defined as the literal `1`. -/
def PERIOD_M1 : Int := 1

/-- Line 25 of the header: `OP_BUY` is defined as the literal `0`. -/
def OP_BUY : Int := 0

/-- Line 26 of the header: `OP_SELL` is defined as the literal `1`. -/
def OP_SELL : Int := 1

/-- Line 29 of the header: the stub `SymbolInfoDouble` ignores its arguments
and returns the literal `0.0`. -/
def SymbolInfoDouble (symbol : String) (prop_id : Int) : Rat := 0

/-- Lines 30 and 31 of the header: the stub `OrderSend` ignores its arguments
and returns the literal `true`. -/
def OrderSend (symbol : String) (cmd : Int) (volume : Rat) (price : Rat)
    (slippage : Int) (stoploss : Rat) (takeprofit : Rat) : Bool := true

/-- Line 32 of the header: the stub `Print` has an empty body. -/
def Print (msg : String) : Unit := ()

/-- Line 33 of the header: the stub `GetLastError` returns the literal `0`. -/
def GetLastError (u : Unit) : Int := 0

/-- Line 36 of the header: the stub `OnInit` returns the literal `0`. -/
def OnInit (u : Unit) : Int := 0

/-- Line 37 of the header: the stub `OnDeinit` has an empty body. -/
def OnDeinit (reason : Int) : Unit := ()

/-- Line 38 of the header: the stub `OnTick` has an empty body. -/
def OnTick (u : Unit) : Unit := ()

/-!
State-passing embedding of the same stub bodies.  Each body is a single
`return` of a literal (or empty), so running it in an ambient program state
`s : σ` — for an arbitrary state type `σ`, since the header itself declares
no mutable state — produces `(s, value)`: the state passes through untouched.
-/

/-- The body of `SymbolInfoDouble` run in ambient state `s`. -/
def SymbolInfoDoubleRun (σ : Type) (s : σ) (symbol : String) (prop_id : Int) :
    σ × Rat := (s, SymbolInfoDouble symbol prop_id)

/-- The body of `OrderSend` run in ambient state `s`. -/
def OrderSendRun (σ : Type) (s : σ) (symbol : String) (cmd : Int)
    (volume price : Rat) (slippage : Int) (stoploss takeprofit : Rat) :
    σ × Bool := (s, OrderSend symbol cmd volume price slippage stoploss takeprofit)

/-- The body of `Print` run in ambient state `s`. -/
def PrintRun (σ : Type) (s : σ) (msg : String) : σ × Unit := (s, Print msg)

/-- The body of `GetLastError` run in ambient state `s`. -/
def GetLastErrorRun (σ : Type) (s : σ) : σ × Int := (s, GetLastError ())

/-- The body of `OnInit` run in ambient state `s`. -/
def OnInitRun (σ : Type) (s : σ) : σ × Int := (s, OnInit ())

/-- The body of `OnDeinit` run in ambient state `s`. -/
def OnDeinitRun (σ : Type) (s : σ) (reason : Int) : σ × Unit := (s, OnDeinit reason)

/-- The body of `OnTick` run in ambient state `s`. -/
def OnTickRun (σ : Type) (s : σ) : σ × Unit := (s, OnTick ())

/-- One invocation of any stub of the header, together with its arguments. -/
inductive Call : Type
  | symbolInfoDouble (symbol : String) (prop_id : Int)
  | orderSend (symbol : String) (cmd : Int) (volume price : Rat)
      (slippage : Int) (stoploss takeprofit : Rat)
  | print (msg : String)
  | getLastError
  | onInit
  | onDeinit (reason : Int)
  | onTick

/-- The mutable program state declared by the header.  The header declares no
global variable at all, so the state carries nothing. -/
def MockState : Type := Unit

/-- Executing one stub call on the program state.  Every stub body is a single
`return` of a literal (or empty) and assigns to nothing, so each call leaves
the state unchanged. -/
def step (s : MockState) : Call → MockState
  | _ => s

/-- Executing a whole history of stub calls, left to right. -/
def runCalls (s : MockState) (calls : List Call) : MockState :=
  calls.foldl step s

/-!
Preprocessor artifacts.  Lines 18 to 20 of the header read

  `   define input`            (expands to nothing)
  `   define sinput static`    (expands to the keyword `static`)
  `   define extern`           (expands to nothing)

and the whole file is wrapped in the include guard `MQL5_MOCK_H`
(lines 7, 8 and 40).  Macro substitution is per token, so we model the
program text as a list of tokens.
-/

/-- Tokens of a linted source text, as seen by the preprocessor with the
three storage-class macros of the header in scope: the three macro names,
the `static` keyword they can produce, and every other token. -/
inductive Tok : Type
  | inputKw
  | sinputKw
  | externKw
  | staticKw
  | otherTok (s : String)
  deriving DecidableEq, Repr

/-- What one token becomes under the three `define` directives of
lines 18 to 20: `input` and the extern keyword expand to no tokens,
`sinput` expands to `static`, anything else is left alone. -/
def macroSubst : Tok → List Tok
  | .inputKw => []
  | .sinputKw => [.staticKw]
  | .externKw => []
  | t => [t]

/-- Preprocessing a token list under the storage-class macros of the header:
each token is replaced by its expansion. -/
def expandMacros (ts : List Tok) : List Tok :=
  (ts.map macroSubst).flatten

/-- Modelled from the spec wording of the claim, for comparison with
`expandMacros`: the same text with `sinput` replaced by `static` and with
the `input` and extern keywords removed. -/
def specStripStorage (ts : List Tok) : List Tok :=
  (ts.map fun t => if t = Tok.sinputKw then Tok.staticKw else t).filter
    fun t => t ≠ Tok.inputKw ∧ t ≠ Tok.externKw

/-- A translation unit as the preprocessor sees it: which macro names are
defined so far, and which declarations have been emitted so far. -/
structure TranslationUnit : Type where
  definedMacros : List String
  decls : List String
  deriving DecidableEq, Repr

/-- The macro names the header defines, in order (lines 8 and 18 to 26). -/
def headerMacros : List String :=
  ["MQL5_MOCK_H", "input", "sinput", "extern",
   "PERIOD_CURRENT", "PERIOD_M1", "OP_BUY", "OP_SELL"]

/-- The declarations the header emits, in order (lines 14, 15 and 29 to 38). -/
def headerDecls : List String :=
  ["datetime", "color", "SymbolInfoDouble", "OrderSend",
   "Print", "GetLastError", "OnInit", "OnDeinit", "OnTick"]

/-- Processing one inclusion of the header into a translation unit:
lines 7 and 8 make the whole body conditional on `MQL5_MOCK_H` being
undefined, and define it first thing inside; the body then contributes the
macros and declarations of the header. -/
def includeMock (tu : TranslationUnit) : TranslationUnit :=
  if "MQL5_MOCK_H" ∈ tu.definedMacros then tu
  else { definedMacros := tu.definedMacros ++ headerMacros,
         decls := tu.decls ++ headerDecls }

/-- C1: the stub `OrderSend` returns `true` for every choice of symbol,
command, volume, price, slippage, stop loss and take profit; in particular
the call `OrderSend "EURUSD" OP_BUY 1.0 price 3 sl tp` returns `true`. -/
theorem orderSend_always_true :
    (∀ (symbol : String) (cmd : Int) (volume price : Rat) (slippage : Int)
        (stoploss takeprofit : Rat),
      OrderSend symbol cmd volume price slippage stoploss takeprofit = true) ∧
    (∀ price sl tp : Rat, OrderSend "EURUSD" OP_BUY 1 price 3 sl tp = true) := by
  exact ⟨fun _ _ _ _ _ _ _ => rfl, fun _ _ _ => rfl⟩

/-- C2: the stub `SymbolInfoDouble` returns exactly `0.0` for every symbol
string and every property identifier. -/
theorem symbolInfoDouble_always_zero :
    ∀ (symbol : String) (prop_id : Int), SymbolInfoDouble symbol prop_id = 0 := by
  exact fun _ _ => rfl

/-- C3 as stated is false: the four constants `PERIOD_CURRENT`, `PERIOD_M1`,
`OP_BUY`, `OP_SELL` are not pairwise distinct, since `PERIOD_CURRENT` and
`OP_BUY` are both the integer `0` (and `PERIOD_M1` and `OP_SELL` are both
`1`). -/
theorem constants_not_pairwise_distinct :
    PERIOD_CURRENT = OP_BUY ∧ PERIOD_M1 = OP_SELL ∧
    ¬ (PERIOD_CURRENT ≠ PERIOD_M1 ∧ PERIOD_CURRENT ≠ OP_BUY ∧
       PERIOD_CURRENT ≠ OP_SELL ∧ PERIOD_M1 ≠ OP_BUY ∧
       PERIOD_M1 ≠ OP_SELL ∧ OP_BUY ≠ OP_SELL) := by
  refine ⟨rfl, rfl, ?_⟩
  intro h
  exact h.2.1 rfl

/-- C3 amended: distinctness holds within each enumeration group — the two
period constants differ from each other and the two operation constants
differ from each other — though not across the whole set of four. -/
theorem constants_distinct_within_group :
    PERIOD_CURRENT ≠ PERIOD_M1 ∧ OP_BUY ≠ OP_SELL := by
  constructor <;> decide

/-- C4: across the two groups the constants coincide — `PERIOD_CURRENT` and
`OP_BUY` are both `0`, `PERIOD_M1` and `OP_SELL` are both `1` — while within
each group they are distinct. -/
theorem constants_coincide_across_groups :
    PERIOD_CURRENT = 0 ∧ OP_BUY = 0 ∧ PERIOD_M1 = 1 ∧ OP_SELL = 1 ∧
    PERIOD_CURRENT = OP_BUY ∧ PERIOD_M1 = OP_SELL ∧
    PERIOD_CURRENT ≠ PERIOD_M1 ∧ OP_BUY ≠ OP_SELL := by
  refine ⟨rfl, rfl, rfl, rfl, rfl, rfl, ?_, ?_⟩ <;> decide

/-- C5: `GetLastError` returns `0` on every call, whatever history of stub
calls (with whatever arguments) preceded it: running any call list from any
program state leaves a state from which `GetLastError` still returns `0`,
and the state itself is unchanged. -/
theorem getLastError_always_zero :
    ∀ (calls : List Call) (s : MockState),
      GetLastErrorRun MockState (runCalls s calls) =
        (runCalls s calls, 0) ∧
      GetLastError () = 0 := by
  intro calls s
  exact ⟨rfl, rfl⟩

/-- C6: every stub of the header is pure and deterministic: run in any
ambient state, it returns that state unchanged together with a value that
depends neither on the arguments nor on the state, hence not on any prior
call history. -/
theorem stubs_pure_and_deterministic :
    (∀ (σ : Type) (s : σ) (symbol : String) (prop_id : Int),
      SymbolInfoDoubleRun σ s symbol prop_id = (s, 0)) ∧
    (∀ (σ : Type) (s : σ) (symbol : String) (cmd : Int) (volume price : Rat)
        (slippage : Int) (stoploss takeprofit : Rat),
      OrderSendRun σ s symbol cmd volume price slippage stoploss takeprofit =
        (s, true)) ∧
    (∀ (σ : Type) (s : σ) (msg : String), PrintRun σ s msg = (s, ())) ∧
    (∀ (σ : Type) (s : σ), GetLastErrorRun σ s = (s, 0)) ∧
    (∀ (σ : Type) (s : σ), OnInitRun σ s = (s, 0)) ∧
    (∀ (σ : Type) (s : σ) (reason : Int), OnDeinitRun σ s reason = (s, ())) ∧
    (∀ (σ : Type) (s : σ), OnTickRun σ s = (s, ())) := by
  refine ⟨?_, ?_, ?_, ?_, ?_, ?_, ?_⟩ <;> intros <;> rfl

/-- C7: the event-handler stubs are trivial: `OnInit` returns `0` on every
call, and `Print`, `OnDeinit` and `OnTick` return `()` and, run in any
ambient state, leave it unchanged, for every argument value. -/
theorem event_handlers_trivial :
    (∀ u : Unit, OnInit u = 0) ∧
    (∀ msg : String, Print msg = ()) ∧
    (∀ reason : Int, OnDeinit reason = ()) ∧
    (∀ u : Unit, OnTick u = ()) ∧
    (∀ (σ : Type) (s : σ) (msg : String), (PrintRun σ s msg).1 = s) ∧
    (∀ (σ : Type) (s : σ) (reason : Int), (OnDeinitRun σ s reason).1 = s) ∧
    (∀ (σ : Type) (s : σ), (OnTickRun σ s).1 = s) := by
  refine ⟨?_, ?_, ?_, ?_, ?_, ?_, ?_⟩ <;> intros <;> rfl

/-- C8: `datetime` resolves to the 64-bit signed integer type `int64_t` and
`color` resolves to the 32-bit unsigned integer type `uint32_t`: the aliases
are definitional, every inhabitant lies in the corresponding fixed-width
range, and every integer of that range is an inhabitant. -/
theorem type_aliases_fixed_width :
    datetime = int64_t ∧ color = uint32_t ∧
    (∀ x : datetime, -(2 ^ 63) ≤ x.val ∧ x.val < 2 ^ 63) ∧
    (∀ m : Int, (∃ x : datetime, x.val = m) ↔ -(2 ^ 63) ≤ m ∧ m < 2 ^ 63) ∧
    (∀ c : color, c.val < 2 ^ 32) ∧
    (∀ n : Nat, (∃ c : color, c.val = n) ↔ n < 2 ^ 32) := by
  refine ⟨rfl, rfl, fun x => x.property, fun m => ?_, fun c => c.property,
    fun n => ?_⟩
  · constructor
    · rintro ⟨x, rfl⟩
      exact x.property
    · intro h
      exact ⟨⟨m, h⟩, rfl⟩
  · constructor
    · rintro ⟨c, rfl⟩
      exact c.property
    · intro h
      exact ⟨⟨n, h⟩, rfl⟩

/-- C9: preprocessing any token list under the three storage-class macros of
the header yields exactly the same text with the `input` and extern keywords
removed and each `sinput` replaced by `static`. -/
theorem storage_class_macros_neutralize :
    ∀ ts : List Tok, expandMacros ts = specStripStorage ts := by
  intro ts
  induction ts with
  | nil => rfl
  | cons t ts ih =>
      cases t <;>
        simp [expandMacros, specStripStorage, macroSubst, List.filter] at ih ⊢ <;>
        exact ih

/-- C10: including the header is idempotent: thanks to the `MQL5_MOCK_H`
include guard, including it `n + 1` times in a translation unit produces
exactly the same defined macros and declarations as including it once. -/
theorem include_idempotent :
    ∀ (tu : TranslationUnit) (n : Nat),
      includeMock^[n + 1] tu = includeMock tu := by
  have once : ∀ tu : TranslationUnit, includeMock (includeMock tu) = includeMock tu := by
    intro tu
    by_cases h : "MQL5_MOCK_H" ∈ tu.definedMacros
    · simp [includeMock, h]
    · have hmem : "MQL5_MOCK_H" ∈ tu.definedMacros ++ headerMacros := by
        simp [headerMacros]
      simp [includeMock, h, hmem]
  intro tu n
  induction n with
  | zero => simp
  | succ k ih =>
      calc includeMock^[k + 1 + 1] tu = includeMock (includeMock^[k + 1] tu) :=
            Function.iterate_succ_apply' includeMock (k + 1) tu
        _ = includeMock (includeMock tu) := by rw [ih]
        _ = includeMock tu := once tu

end Mql5
